import Mathlib

/-!
Shallow embedding of the order/inventory core of the `dwh_fb` backend
(Flask + SQLAlchemy).  The Python services and models are translated to
pure Lean functions over an explicit database state:

* `app/models/order.py`   : `OrderStatus`, `VALID_TRANSITIONS`, `Order`,
  `OrderItem`, `OrderHistory`, `Order.can_transition_to`,
  `Order.update_status`, `Order.calculate_total`,
  `OrderItem.calculate_total`.
* `app/models/stock.py`   : `MovementType`, `Stock`, `StockMovement`,
  `Stock.add_movement`.
* `app/services/stock_service.py` : `StockService.get_or_create_stock`,
  `create_movement`, `add_stock`, `remove_stock`, `adjust_stock`,
  `deduct_for_order`, `return_stock_for_order`.
* `app/services/order_service.py` : `OrderService.create_order`,
  `confirm_order`, `update_status`, `cancel_order`.
* `app/services/dashboard_service.py` :
  `DashboardService.get_chiffre_affaires`.
* `app/api/v1/stocks.py` / `app/api/v1/orders.py` : the pieces of the
  HTTP layer the claims mention (the `StockMovementCreateSchema`
  validation guarding `POST /stocks/movements`, and the
  `add_order_history` helper).

Python ints are unbounded, so quantities and (exact decimal) monetary
amounts are modelled by `Int`.  A `ValueError` raised by a service is
modelled by an explicit error value; every operation also returns the
in-memory state as it stands at the moment of the raise, since the
services mutate ORM objects in place and it is the HTTP layer that
decides whether to commit or roll back the session.
-/

/-- The `OrderStatus` enum from `app/models/order.py`. -/
inductive OrderStatus where
  | brouillon
  | confirmee
  | payee
  | en_preparation
  | en_livraison
  | livree
  | annulee
deriving DecidableEq, Repr

/-- The `MovementType` enum from `app/models/stock.py`. -/
inductive MovementType where
  | entree
  | sortie
  | ajustement
  | vente
  | retour
deriving DecidableEq, Repr

/-- The `VALID_TRANSITIONS` table from `app/models/order.py`. -/
def VALID_TRANSITIONS : OrderStatus → List OrderStatus
  | .brouillon => [.confirmee, .annulee]
  | .confirmee => [.payee, .annulee]
  | .payee => [.en_preparation, .annulee]
  | .en_preparation => [.en_livraison, .annulee]
  | .en_livraison => [.livree, .annulee]
  | .livree => []
  | .annulee => []

/-- The `OrderItem` model from `app/models/order.py` (columns used by the core). -/
structure OrderItem where
  product_id : Nat
  quantity : Int
  prix_unitaire : Int
  prix_total : Int
deriving DecidableEq, Repr

/-- The `OrderItem.calculate_total`: `prix_total = prix_unitaire * quantity`. -/
def OrderItem.calculate_total (it : OrderItem) : OrderItem :=
  { it with prix_total := it.prix_unitaire * it.quantity }

/-- The `Order` model from `app/models/order.py` (columns touched by the
services, plus `is_deleted`/`created_at` from the audit mixins, which the
dashboard query filters on).  Workflow dates are abstract instants (`Nat`). -/
structure Order where
  numero : String
  status : OrderStatus
  client_nom : String
  client_telephone : Option String := none
  client_email : Option String := none
  adresse_livraison : Option String := none
  montant_total : Int := 0
  montant_remise : Int := 0
  montant_livraison : Int := 0
  date_confirmation : Option Nat := none
  date_paiement : Option Nat := none
  date_preparation : Option Nat := none
  date_expedition : Option Nat := none
  date_livraison : Option Nat := none
  notes : Option String := none
  motif_annulation : Option String := none
  type_paiement : Option String := none
  mobile_money_numero : Option String := none
  mobile_money_ref : Option String := none
  montant_paye : Option Int := none
  user_id : Option Nat := none
  livreur_id : Option Nat := none
  items : List OrderItem := []
  is_deleted : Bool := false
  created_at : Nat := 0
deriving DecidableEq, Repr

/-- The `Order.can_transition_to` from `app/models/order.py`. -/
def Order.can_transition_to (o : Order) (target : OrderStatus) : Bool :=
  (VALID_TRANSITIONS o.status).contains target

/-- The date-stamping branch of `Order.update_status`: records the date
matching the new status (no date for `brouillon`/`annulee`). -/
def Order.stamp_date (o : Order) (target : OrderStatus) (now : Nat) : Order :=
  match target with
  | .confirmee => { o with date_confirmation := some now }
  | .payee => { o with date_paiement := some now }
  | .en_preparation => { o with date_preparation := some now }
  | .en_livraison => { o with date_expedition := some now }
  | .livree => { o with date_livraison := some now }
  | _ => o

/-- The `Order.update_status` from `app/models/order.py`: mutates status and
stamps the matching date when the transition is legal (Python returns
`True` and mutates in place; here `some` carries the mutated order), and
returns `False` (`none`) leaving the order untouched otherwise. -/
def Order.update_status (o : Order) (target : OrderStatus) (now : Nat) : Option Order :=
  if o.can_transition_to target then
    some { o.stamp_date target now with status := target }
  else
    none

/-- The `Order.calculate_total` from `app/models/order.py`:
`montant_total = sum(prix_total) + montant_livraison - montant_remise`. -/
def Order.calculate_total (o : Order) : Order :=
  { o with montant_total :=
      (o.items.map (fun it => it.prix_total)).sum + o.montant_livraison - o.montant_remise }

/-- The `Stock` model from `app/models/stock.py`. -/
structure Stock where
  product_id : Nat
  quantity : Int
  seuil_alerte : Int
deriving DecidableEq, Repr

/-- The `StockMovement` model from `app/models/stock.py`. -/
structure StockMovement where
  product_id : Nat
  movement_type : MovementType
  quantity : Int
  quantity_before : Int
  quantity_after : Int
  reference : Option String
  notes : Option String
deriving DecidableEq, Repr

/-- The `OrderHistory` model from `app/models/order.py` (columns used by the
`add_order_history` helper in `app/api/v1/orders.py`). -/
structure OrderHistory where
  order_id : Nat
  event : String
  note : Option String
deriving DecidableEq, Repr

/-- The `Product` model from `app/models/product.py` (columns the order/stock
core reads: id, price, soft-delete flag). -/
structure Product where
  id : Nat
  prix : Int
  is_deleted : Bool := false
deriving DecidableEq, Repr

/-- The persistent state the inventory/history tables hold: stock rows
(at most one per product), the append-only movement log, and the
append-only order history log. -/
structure DB where
  stocks : List Stock
  movements : List StockMovement
  history : List OrderHistory
deriving DecidableEq, Repr

/-- The `Stock.query.filter_by(product_id=...)` lookup. -/
def DB.find_stock (db : DB) (pid : Nat) : Option Stock :=
  db.stocks.find? (fun s => s.product_id == pid)

/-- Writes a new quantity into the stock row of the given product. -/
def DB.set_stock_quantity (db : DB) (pid : Nat) (q : Int) : DB :=
  { db with stocks := db.stocks.map (fun s =>
      if s.product_id == pid then { s with quantity := q } else s) }

/-- The `Stock.add_movement` from `app/models/stock.py`: computes the new
quantity according to the movement type (add for `entree`/`retour`,
subtract for `sortie`/`vente`, overwrite for `ajustement`), updates the
stock row and appends one `StockMovement` with the before/after snapshot.
No quantity validation and no sufficiency check happen here. -/
def DB.add_movement (db : DB) (s : Stock) (mt : MovementType) (q : Int)
    (reference notes : Option String) : DB × StockMovement :=
  let after : Int :=
    match mt with
    | .entree | .retour => s.quantity + q
    | .sortie | .vente => s.quantity - q
    | .ajustement => q
  let m : StockMovement :=
    { product_id := s.product_id, movement_type := mt, quantity := q,
      quantity_before := s.quantity, quantity_after := after,
      reference := reference, notes := notes }
  let db1 := db.set_stock_quantity s.product_id after
  ({ db1 with movements := db1.movements ++ [m] }, m)

/-- Service-layer errors (`ValueError` messages raised by the services,
with their structured content). -/
inductive SvcError where
  | insufficient_stock (product_id : Nat) (available requested : Int)
  | invalid_transition (src tgt : OrderStatus)
  | missing_reason
  | product_not_found (product_id : Nat)
deriving DecidableEq, Repr

/-- The `StockService.get_or_create_stock` from `app/services/stock_service.py`
(with the default arguments used by every caller in the core:
`initial_quantity=0`, `seuil_alerte=10`). -/
def StockService.get_or_create_stock (db : DB) (pid : Nat) : DB × Stock :=
  match db.find_stock pid with
  | some s => (db, s)
  | none =>
    let s : Stock := { product_id := pid, quantity := 0, seuil_alerte := 10 }
    ({ db with stocks := db.stocks ++ [s] }, s)

/-- The `StockService.create_movement`: fetch-or-create the stock row, then
`Stock.add_movement`.  It performs no validation of any kind. -/
def StockService.create_movement (db : DB) (pid : Nat) (mt : MovementType) (q : Int)
    (reference notes : Option String) : DB × StockMovement :=
  let (db1, s) := StockService.get_or_create_stock db pid
  db1.add_movement s mt q reference notes

/-- The `StockService.add_stock`: an `entree` movement. -/
def StockService.add_stock (db : DB) (pid : Nat) (q : Int)
    (reference notes : Option String) : DB × StockMovement :=
  StockService.create_movement db pid .entree q reference notes

/-- The `StockService.remove_stock`: checks availability, then performs a
`sortie` movement.  On insufficiency it raises, leaving the state as
produced by `get_or_create_stock`. -/
def StockService.remove_stock (db : DB) (pid : Nat) (q : Int)
    (reference notes : Option String) : DB × Except SvcError StockMovement :=
  let (db1, s) := StockService.get_or_create_stock db pid
  if s.quantity < q then
    (db1, .error (.insufficient_stock pid s.quantity q))
  else
    let (db2, m) := StockService.create_movement db1 pid .sortie q reference notes
    (db2, .ok m)

/-- The `StockService.adjust_stock`: an `ajustement` movement to an absolute
new quantity, with no validation. -/
def StockService.adjust_stock (db : DB) (pid : Nat) (new_quantity : Int)
    (notes : Option String) : DB × StockMovement :=
  StockService.create_movement db pid .ajustement new_quantity none notes

/-- The loop body of `StockService.deduct_for_order`: for each item,
fetch-or-create the stock, raise on insufficiency (keeping the mutations
already made for earlier items), otherwise record a `vente` movement. -/
def deduct_items (db : DB) (numero : String) :
    List OrderItem → DB × Except SvcError (List StockMovement)
  | [] => (db, .ok [])
  | it :: rest =>
    let (db1, s) := StockService.get_or_create_stock db it.product_id
    if s.quantity < it.quantity then
      (db1, .error (.insufficient_stock it.product_id s.quantity it.quantity))
    else
      let (db2, m) := db1.add_movement s .vente it.quantity (some numero)
        (some ("Vente commande " ++ numero))
      match deduct_items db2 numero rest with
      | (db3, .ok ms) => (db3, .ok (m :: ms))
      | (db3, .error e) => (db3, .error e)

/-- The `StockService.deduct_for_order` from `app/services/stock_service.py`. -/
def StockService.deduct_for_order (db : DB) (o : Order) :
    DB × Except SvcError (List StockMovement) :=
  deduct_items db o.numero o.items

/-- The loop body of `StockService.return_stock_for_order`: one `retour`
movement per item, no checks. -/
def return_items (db : DB) (numero : String) :
    List OrderItem → DB × List StockMovement
  | [] => (db, [])
  | it :: rest =>
    let (db1, s) := StockService.get_or_create_stock db it.product_id
    let (db2, m) := db1.add_movement s .retour it.quantity (some numero)
      (some ("Retour annulation commande " ++ numero))
    let (db3, ms) := return_items db2 numero rest
    (db3, m :: ms)

/-- The `StockService.return_stock_for_order` from
`app/services/stock_service.py`. -/
def StockService.return_stock_for_order (db : DB) (o : Order) :
    DB × List StockMovement :=
  return_items db o.numero o.items

/-- Result of one Workflow Service call: the database and order as they
stand when the call returns or raises, and the raised error if any. -/
structure StepResult where
  db : DB
  order : Order
  result : Option SvcError
deriving DecidableEq, Repr

/-- The stock-availability pre-check loop at the top of
`OrderService.confirm_order`: raises on the first item whose product has
no stock row (available treated as 0) or whose stock is below the item
quantity. -/
def confirm_precheck (db : DB) : List OrderItem → Option SvcError
  | [] => none
  | it :: rest =>
    match db.find_stock it.product_id with
    | none => some (.insufficient_stock it.product_id 0 it.quantity)
    | some s =>
      if s.quantity < it.quantity then
        some (.insufficient_stock it.product_id s.quantity it.quantity)
      else confirm_precheck db rest

/-- The `OrderService.confirm_order` from `app/services/order_service.py`:
transition guard, stock pre-check over all items, `deduct_for_order`,
then `Order.update_status(CONFIRMEE)` (whose boolean result the Python
code ignores). -/
def OrderService.confirm_order (db : DB) (o : Order) (now : Nat) : StepResult :=
  if o.can_transition_to .confirmee then
    match confirm_precheck db o.items with
    | some e => { db := db, order := o, result := some e }
    | none =>
      match StockService.deduct_for_order db o with
      | (db1, .error e) => { db := db1, order := o, result := some e }
      | (db1, .ok _) =>
        match o.update_status .confirmee now with
        | some o1 => { db := db1, order := o1, result := none }
        | none => { db := db1, order := o, result := none }
  else
    { db := db, order := o, result := some (.invalid_transition o.status .confirmee) }

/-- The `OrderService.update_status` from `app/services/order_service.py`:
when the target is `annulee` and the current status is one of
`confirmee`, `en_preparation`, `en_livraison`, first returns the stock
for the order; then applies `Order.update_status`, raising on an illegal
transition. -/
def OrderService.update_status (db : DB) (o : Order) (target : OrderStatus)
    (now : Nat) : StepResult :=
  let db1 :=
    if target = .annulee ∧
        (o.status = .confirmee ∨ o.status = .en_preparation ∨ o.status = .en_livraison) then
      (StockService.return_stock_for_order db o).1
    else db
  match o.update_status target now with
  | some o1 => { db := db1, order := o1, result := none }
  | none => { db := db1, order := o, result := some (.invalid_transition o.status target) }

/-- The `OrderService.cancel_order` from `app/services/order_service.py`:
raises if the reason is blank; otherwise **first writes
`motif_annulation` on the order**, then delegates to
`OrderService.update_status(ANNULEE)`. -/
def OrderService.cancel_order (db : DB) (o : Order) (motif : String)
    (now : Nat) : StepResult :=
  if motif = "" then
    { db := db, order := o, result := some .missing_reason }
  else
    OrderService.update_status db { o with motif_annulation := some motif } .annulee now

/-- Input of `OrderService.create_order` (the fields the service reads
from `data`; items as `(product_id, quantity)` pairs). -/
structure OrderCreateData where
  client_nom : String
  items : List (Nat × Int)
  montant_remise : Int := 0
  montant_livraison : Int := 0
deriving DecidableEq, Repr

/-- The item-building loop of `OrderService.create_order`: looks each
product up (`Product.query.get`, which does not filter soft-deleted
rows), prices the line from the current product price and computes its
total; raises on a missing product. -/
def build_items (products : List Product) :
    List (Nat × Int) → Except SvcError (List OrderItem)
  | [] => .ok []
  | (pid, q) :: rest =>
    match products.find? (fun p => p.id == pid) with
    | none => .error (.product_not_found pid)
    | some p =>
      match build_items products rest with
      | .ok its =>
        .ok (OrderItem.calculate_total
          { product_id := pid, quantity := q, prix_unitaire := p.prix, prix_total := 0 } :: its)
      | .error e => .error e

/-- The `OrderService.create_order` from `app/services/order_service.py`:
builds a `brouillon` order with priced items and computed total.  The
generated `numero` is passed in (the Python code derives it from the
clock and a random suffix).  Note that neither this service nor the
`POST /orders` endpoint writes any `OrderHistory` row: `db` is returned
unchanged, in particular `db.history`. -/
def OrderService.create_order (products : List Product) (db : DB)
    (numero : String) (data : OrderCreateData) (user_id : Option Nat) :
    DB × Except SvcError Order :=
  match build_items products data.items with
  | .error e => (db, .error e)
  | .ok its =>
    let o : Order :=
      { numero := numero, status := .brouillon, client_nom := data.client_nom,
        montant_remise := data.montant_remise,
        montant_livraison := data.montant_livraison,
        user_id := user_id, items := its }
    (db, .ok o.calculate_total)

/-- The `add_order_history` helper from `app/api/v1/orders.py`: appends one
`OrderHistory` row.  It is defined in the source but never called from
any endpoint or service. -/
def add_order_history (db : DB) (order_id : Nat) (event : String)
    (note : Option String) : DB × OrderHistory :=
  let h : OrderHistory := { order_id := order_id, event := event, note := note }
  ({ db with history := db.history ++ [h] }, h)

/-- The `valid_statuses` list of
`DashboardService.get_chiffre_affaires` (`app/services/dashboard_service.py`):
`confirmee`, `en_preparation`, `en_livraison`, `livree` — `payee` is absent. -/
def chiffre_affaires_statuses : List OrderStatus :=
  [.confirmee, .en_preparation, .en_livraison, .livree]

/-- The `DashboardService.get_chiffre_affaires`: sum of `montant_total` over
non-deleted orders whose status is in `chiffre_affaires_statuses` and
whose `created_at` lies in the closed date range. -/
def DashboardService.get_chiffre_affaires (orders : List Order)
    (start_date end_date : Nat) : Int :=
  ((orders.filter (fun o =>
      !o.is_deleted && chiffre_affaires_statuses.contains o.status &&
      decide (start_date ≤ o.created_at) && decide (o.created_at ≤ end_date))).map
    (fun o => o.montant_total)).sum

/-- Errors returned by the HTTP layer before reaching a service. -/
inductive ApiError where
  | validation_error
  | not_found
deriving DecidableEq, Repr

/-- The `POST /stocks/movements` endpoint (`create_movement` view in
`app/api/v1/stocks.py`): `StockMovementCreateSchema` validates
`quantity` with `Range(min=1)` and the movement type against the enum,
then the product is looked up filtering soft-deleted rows, then
`StockService.create_movement` runs with no further checks. -/
def create_movement_endpoint (products : List Product) (db : DB) (pid : Nat)
    (mt : MovementType) (q : Int) (reference notes : Option String) :
    DB × Except ApiError StockMovement :=
  if q < 1 then
    (db, .error .validation_error)
  else
    match products.find? (fun p => p.id == pid && !p.is_deleted) with
    | none => (db, .error .not_found)
    | some _ =>
      let (db1, m) := StockService.create_movement db pid mt q reference notes
      (db1, .ok m)

/-- The "available" quantity the services report for a product: the stock
row quantity, or 0 when no stock row exists (mirrors
`available = stock.quantity if stock else 0` in
`OrderService.confirm_order`). -/
def available_stock (db : DB) (pid : Nat) : Int :=
  match db.find_stock pid with
  | some s => s.quantity
  | none => 0

/-! ### Concrete fixtures used by counterexamples and witnesses -/

/-- Product 1, priced 100, not deleted. -/
def products1 : List Product := [{ id := 1, prix := 100 }]

/-- Stock of 5 units for product 1 (scenario A). -/
def db5 : DB := { stocks := [{ product_id := 1, quantity := 5, seuil_alerte := 10 }],
                  movements := [], history := [] }

/-- Stock of 2 units for product 1 (scenario B). -/
def db2 : DB := { stocks := [{ product_id := 1, quantity := 2, seuil_alerte := 10 }],
                  movements := [], history := [] }

/-- One order line: product 1, quantity 3, unit price 100. -/
def item3 : OrderItem :=
  { product_id := 1, quantity := 3, prix_unitaire := 100, prix_total := 300 }

/-- A draft order with the single line `item3`. -/
def order_draft : Order :=
  { numero := "CMD-1", status := .brouillon, client_nom := "Client",
    montant_total := 300, items := [item3] }

/-- A draft order with two lines for the same product 1, 3 units each. -/
def order_dup : Order :=
  { numero := "CMD-2", status := .brouillon, client_nom := "Client",
    montant_total := 600, items := [item3, item3] }

/-- A draft order with no lines. -/
def order_empty : Order :=
  { numero := "CMD-3", status := .brouillon, client_nom := "Client" }

/-- A delivered order. -/
def order_livree : Order :=
  { numero := "CMD-4", status := .livree, client_nom := "Client",
    montant_total := 300, items := [item3] }

/-- A paid order with the single line `item3`. -/
def order_payee : Order :=
  { numero := "CMD-5", status := .payee, client_nom := "Client",
    montant_total := 300, items := [item3] }

/-! ### C1: cancel on a terminal order mutates `motif_annulation` -/

/-- C1 counterexample: cancelling a delivered order does fail with an
invalid-transition error, but the order does **not** keep all its fields:
`motif_annulation` was `none` before the call and holds the given reason
afterwards, because `OrderService.cancel_order` writes the reason before
validating the transition. -/
theorem C1_counterexample :
    order_livree.motif_annulation = none ∧
    (OrderService.cancel_order db5 order_livree "demande client" 0).result =
      some (.invalid_transition .livree .annulee) ∧
    (OrderService.cancel_order db5 order_livree "demande client" 0).order.motif_annulation =
      some "demande client" := by
  refine ⟨rfl, rfl, rfl⟩

/-- Shared frame lemma: cancelling an order whose status is `livree` or
`annulee` with a non-blank reason fails with `InvalidTransition`, leaves
the database (stocks, movements, history) untouched and leaves every
field of the order unchanged **except** `motif_annulation`, which is set
to the given reason before the transition check runs. -/
theorem cancel_terminal_frame (db : DB) (o : Order) (motif : String) (now : Nat)
    (hst : o.status = .livree ∨ o.status = .annulee) (hm : motif ≠ "") :
    OrderService.cancel_order db o motif now =
      { db := db, order := { o with motif_annulation := some motif },
        result := some (.invalid_transition o.status .annulee) } := by
  unfold OrderService.cancel_order
  rw [if_neg hm]
  unfold OrderService.update_status Order.update_status Order.can_transition_to
  rcases hst with hst | hst <;>
    simp [hst, VALID_TRANSITIONS]

/-- Shared frame lemma: cancelling with a blank reason fails with the
missing-reason error before touching anything. -/
theorem cancel_blank_reason (db : DB) (o : Order) (now : Nat) :
    OrderService.cancel_order db o "" now =
      { db := db, order := o, result := some .missing_reason } := by
  unfold OrderService.cancel_order
  rw [if_pos rfl]

/-! ### C2 counterexample: duplicate-product lines -/

/-- C2 counterexample: `order_dup` is a draft order whose every line
quantity (3) is at most the stock of its product (5), yet
`confirm_order` fails with insufficient stock, because the two lines
reference the same product and the per-line pre-check does not account
for their sum. -/
theorem C2_counterexample :
    order_dup.status = .brouillon ∧
    (∀ it ∈ order_dup.items, ∃ s,
      db5.find_stock it.product_id = some s ∧ it.quantity ≤ s.quantity) ∧
    (OrderService.confirm_order db5 order_dup 0).result =
      some (.insufficient_stock 1 2 3) := by
  refine ⟨rfl, by decide, rfl⟩

/-! ### C5: a `sortie` movement may drive stock negative -/

/-- C5: the generic `POST /stocks/movements` endpoint accepts a `sortie`
of 5 units against a stock of 2 (the schema only checks `quantity >= 1`)
and `StockService.create_movement` applies it with no sufficiency check:
the movement is recorded and the stock quantity becomes -3. -/
theorem C5_sortie_goes_negative :
    (create_movement_endpoint products1 db2 1 .sortie 5 none none).2 =
      .ok { product_id := 1, movement_type := .sortie, quantity := 5,
            quantity_before := 2, quantity_after := -3,
            reference := none, notes := none } ∧
    ((create_movement_endpoint products1 db2 1 .sortie 5 none none).1.find_stock 1) =
      some { product_id := 1, quantity := -3, seuil_alerte := 10 } := by
  refine ⟨rfl, rfl⟩

/-! ### C6: confirming an empty draft order succeeds -/

/-- C6: `OrderService.confirm_order` has no empty-order check: a draft
order with no lines is confirmed without error (status becomes
`confirmee`, the confirmation date is stamped), contradicting the claim
that it fails with `EmptyOrder`. -/
theorem C6_empty_order_confirmed :
    order_empty.items = [] ∧
    OrderService.confirm_order db5 order_empty 7 =
      { db := db5,
        order := { order_empty with status := .confirmee, date_confirmation := some 7 },
        result := none } := by
  refine ⟨rfl, rfl⟩

/-! ### C7: the ledger service performs no quantity validation -/

/-- C7 counterexample: `StockService.create_movement` (the ledger `move`)
called with the non-positive quantity -3 for a `sortie` does not fail at
all: it records a movement and **increases** the stock from 5 to 8. -/
theorem C7_counterexample :
    StockService.create_movement db5 1 .sortie (-3) none none =
      ({ stocks := [{ product_id := 1, quantity := 8, seuil_alerte := 10 }],
         movements := [{ product_id := 1, movement_type := .sortie, quantity := -3,
                         quantity_before := 5, quantity_after := 8,
                         reference := none, notes := none }],
         history := [] },
       { product_id := 1, movement_type := .sortie, quantity := -3,
         quantity_before := 5, quantity_after := 8,
         reference := none, notes := none }) := by
  rfl

/-- C7 (amended): the positivity check lives in the HTTP layer, not the
ledger: `POST /stocks/movements` rejects any quantity below 1 through
`StockMovementCreateSchema` before any state is touched — no movement is
created and the stock is unchanged. -/
theorem C7_endpoint_rejects_nonpositive (products : List Product) (db : DB)
    (pid : Nat) (mt : MovementType) (q : Int) (reference notes : Option String)
    (h : q < 1) :
    create_movement_endpoint products db pid mt q reference notes =
      (db, .error .validation_error) := by
  unfold create_movement_endpoint
  rw [if_pos h]

/-- Witness for `C7_endpoint_rejects_nonpositive` at quantity 0. -/
theorem C7_witness :
    (0 : Int) < 1 ∧
    create_movement_endpoint products1 db5 1 .sortie 0 none none =
      (db5, .error .validation_error) :=
  ⟨by decide, C7_endpoint_rejects_nonpositive products1 db5 1 .sortie 0 none none (by decide)⟩

/-! ### C8: no history entry is ever written -/

/-- The order produced by `OrderService.create_order` on `products1` /
`db5` with one line of 3 units of product 1. -/
def c8_order : Order :=
  match (OrderService.create_order products1 db5 "CMD-A"
      { client_nom := "Client", items := [(1, 3)] } none).2 with
  | .ok o => o
  | .error _ => order_empty

/-- C8: neither creating an order nor confirming it writes any
`OrderHistory` row: the `add_order_history` helper exists in
`app/api/v1/orders.py` but no endpoint or service ever calls it, so the
history log stays empty across a successful create + confirm. -/
theorem C8_no_history_entries :
    (OrderService.create_order products1 db5 "CMD-A"
        { client_nom := "Client", items := [(1, 3)] } none).2 = .ok c8_order ∧
    (OrderService.create_order products1 db5 "CMD-A"
        { client_nom := "Client", items := [(1, 3)] } none).1.history = [] ∧
    (OrderService.confirm_order db5 c8_order 3).result = none ∧
    (OrderService.confirm_order db5 c8_order 3).db.history = [] := by
  refine ⟨rfl, rfl, rfl, rfl⟩

/-! ### C9: `payee` orders are excluded from revenue -/

/-- A paid, non-deleted order of total 100 created at instant 5. -/
def order_payee_total100 : Order :=
  { numero := "CMD-9", status := .payee, client_nom := "Client",
    montant_total := 100, created_at := 5 }

/-- C9: `get_chiffre_affaires` over the range [0, 10] returns 0 on a
single in-range, non-deleted order of total 100 whose status is `payee`,
while the very same order counted 100 once its status is `confirmee`:
the `payee` status is missing from the `valid_statuses` list even though
both its predecessor and its successors are present. -/
theorem C9_payee_excluded :
    DashboardService.get_chiffre_affaires [order_payee_total100] 0 10 = 0 ∧
    DashboardService.get_chiffre_affaires
      [{ order_payee_total100 with status := .confirmee }] 0 10 = 100 := by
  refine ⟨rfl, rfl⟩

/-! ### C4: exhaustiveness of the transition table -/

/-- Shared frame lemma: a transition outside `VALID_TRANSITIONS` is
rejected with `InvalidTransition`, the database and the order returned
exactly as they were (the restore guard only fires on in-table pairs). -/
theorem update_status_invalid_frame (db : DB) (o : Order) (target : OrderStatus)
    (now : Nat) (h : target ∉ VALID_TRANSITIONS o.status) :
    OrderService.update_status db o target now =
      { db := db, order := o, result := some (.invalid_transition o.status target) } := by
  have hg : ¬(target = .annulee ∧
      (o.status = .confirmee ∨ o.status = .en_preparation ∨ o.status = .en_livraison)) := by
    rintro ⟨ht, hs⟩
    subst ht
    rcases hs with hs | hs | hs <;> rw [hs] at h <;> simp [VALID_TRANSITIONS] at h
  have hc : o.can_transition_to target = false := by
    unfold Order.can_transition_to
    simpa using h
  unfold OrderService.update_status Order.update_status
  rw [if_neg hg, hc]
  simp

/-- C4: for every `(current, target)` pair outside `VALID_TRANSITIONS`,
`OrderService.update_status` raises `InvalidTransition` and returns the
database and the order exactly as they were (no stock restoration runs,
since the restoration guard only fires on pairs that are in the table). -/
theorem C4_nontable_transition_rejected (db : DB) (o : Order) (target : OrderStatus)
    (now : Nat) (h : target ∉ VALID_TRANSITIONS o.status) :
    OrderService.update_status db o target now =
      { db := db, order := o, result := some (.invalid_transition o.status target) } :=
  update_status_invalid_frame db o target now h

/-- Witness for `C4_nontable_transition_rejected`: a delivered order may
not go back to `confirmee`. -/
theorem C4_witness :
    OrderStatus.confirmee ∉ VALID_TRANSITIONS order_livree.status ∧
    OrderService.update_status db5 order_livree .confirmee 0 =
      { db := db5, order := order_livree,
        result := some (.invalid_transition order_livree.status .confirmee) } :=
  ⟨by decide, C4_nontable_transition_rejected db5 order_livree .confirmee 0 (by decide)⟩

/-! ### C10: cancelling a paid order restores nothing -/

/-- C10: cancelling an order whose current status is `payee` succeeds
(the transition `payee -> annulee` is legal) but performs no inventory
restoration at all: the returned database is the input database — no
`retour` movement is created and every stock quantity is unchanged —
because the restoration guard in `OrderService.update_status` only fires
for `confirmee`, `en_preparation` and `en_livraison`. -/
theorem C10_cancel_paid_no_restore (db : DB) (o : Order) (motif : String) (now : Nat)
    (hst : o.status = .payee) (hm : motif ≠ "") :
    OrderService.cancel_order db o motif now =
      { db := db,
        order := { o with motif_annulation := some motif, status := .annulee },
        result := none } := by
  unfold OrderService.cancel_order
  rw [if_neg hm]
  unfold OrderService.update_status Order.update_status Order.can_transition_to Order.stamp_date
  simp [hst, VALID_TRANSITIONS]

/-- Witness for `C10_cancel_paid_no_restore` on a paid one-line order
whose product has stock (so a restoration, had it run, would have been
visible). -/
theorem C10_witness :
    order_payee.status = .payee ∧
    OrderService.cancel_order db5 order_payee "rupture" 0 =
      { db := db5,
        order := { order_payee with motif_annulation := some "rupture", status := .annulee },
        result := none } :=
  ⟨rfl, C10_cancel_paid_no_restore db5 order_payee "rupture" 0 rfl (by decide)⟩

/-! ### C3: insufficient stock aborts `confirm_order` before any mutation -/

/-- The pre-check loop of `confirm_order`, when some item requests more
than its available stock, fails with an insufficient-stock error whose
payload is the product id, the actual available stock and the actual
requested quantity of the line the check trips on. -/
theorem precheck_isSome_of_bad (db : DB) :
    ∀ items : List OrderItem,
      (∃ it ∈ items, available_stock db it.product_id < it.quantity) →
      ∃ it ∈ items, confirm_precheck db items =
        some (.insufficient_stock it.product_id (available_stock db it.product_id)
          it.quantity) := by
  intro items
  induction items with
  | nil => rintro ⟨it, hmem, _⟩; cases hmem
  | cons it rest ih =>
    rintro ⟨it0, hmem, hbad⟩
    unfold confirm_precheck
    cases hfind : db.find_stock it.product_id with
    | none =>
      refine ⟨it, List.mem_cons_self it rest, ?_⟩
      simp [available_stock, hfind]
    | some s =>
      by_cases hlt : s.quantity < it.quantity
      · refine ⟨it, List.mem_cons_self it rest, ?_⟩
        simp [available_stock, hfind, hlt]
      · simp only [hlt, if_false]
        rcases List.mem_cons.mp hmem with h0 | h0
        · subst h0
          simp only [available_stock, hfind] at hbad
          exact absurd hbad hlt
        · obtain ⟨it1, hmem1, heq1⟩ := ih ⟨it0, h0, hbad⟩
          exact ⟨it1, List.mem_cons_of_mem it hmem1, heq1⟩

/-- Shared frame lemma: confirming a draft order with an insufficiently
stocked line fails during the pre-check, before any mutation, and the
error payload is the product id, actual available stock and actual
requested quantity of the line the check trips on. -/
theorem confirm_insufficient_frame (db : DB) (o : Order) (now : Nat)
    (hst : o.status = .brouillon)
    (hbad : ∃ it ∈ o.items, available_stock db it.product_id < it.quantity) :
    (∃ it ∈ o.items, (OrderService.confirm_order db o now).result =
        some (.insufficient_stock it.product_id (available_stock db it.product_id)
          it.quantity)) ∧
    (OrderService.confirm_order db o now).db = db ∧
    (OrderService.confirm_order db o now).order = o := by
  obtain ⟨it, hmem, hpre⟩ := precheck_isSome_of_bad db o.items hbad
  have hc : o.can_transition_to .confirmee = true := by
    unfold Order.can_transition_to
    rw [hst]
    rfl
  unfold OrderService.confirm_order
  rw [hc, hpre]
  exact ⟨⟨it, hmem, rfl⟩, rfl, rfl⟩

/-- Shared frame lemma: confirming a non-draft order is rejected with
`InvalidTransition`, the database and the order returned unchanged. -/
theorem confirm_nondraft_frame (db : DB) (o : Order) (now : Nat)
    (h : o.status ≠ .brouillon) :
    OrderService.confirm_order db o now =
      { db := db, order := o, result := some (.invalid_transition o.status .confirmee) } := by
  have hc : o.can_transition_to .confirmee = false := by
    unfold Order.can_transition_to
    cases hs : o.status <;> first | exact absurd hs h | rfl
  unfold OrderService.confirm_order
  rw [hc]
  simp

/-- C3: confirming a draft order that has at least one line requesting
more than the available stock of its product fails with an
insufficient-stock error whose payload is the product id, the actual
available stock and the actual requested quantity of the line the check
trips on, and leaves the database (stocks and movements) and the order
(in particular its `brouillon` status) exactly unchanged. -/
theorem C3_confirm_insufficient_rolls_back (db : DB) (o : Order) (now : Nat)
    (hst : o.status = .brouillon)
    (hbad : ∃ it ∈ o.items, available_stock db it.product_id < it.quantity) :
    (∃ it ∈ o.items, (OrderService.confirm_order db o now).result =
        some (.insufficient_stock it.product_id (available_stock db it.product_id)
          it.quantity)) ∧
    (OrderService.confirm_order db o now).db = db ∧
    (OrderService.confirm_order db o now).order = o :=
  confirm_insufficient_frame db o now hst hbad

/-- Witness for `C3_confirm_insufficient_rolls_back`: scenario B — stock
2, one line requesting 3; the error payload is exactly
`available = 2, requested = 3` for product 1. -/
theorem C3_witness :
    order_draft.status = .brouillon ∧
    (∃ it ∈ order_draft.items, available_stock db2 it.product_id < it.quantity) ∧
    (OrderService.confirm_order db2 order_draft 0).result =
      some (.insufficient_stock 1 2 3) ∧
    ((∃ it ∈ order_draft.items, (OrderService.confirm_order db2 order_draft 0).result =
        some (.insufficient_stock it.product_id (available_stock db2 it.product_id)
          it.quantity)) ∧
     (OrderService.confirm_order db2 order_draft 0).db = db2 ∧
     (OrderService.confirm_order db2 order_draft 0).order = order_draft) :=
  ⟨rfl, by decide, rfl,
    C3_confirm_insufficient_rolls_back db2 order_draft 0 rfl (by decide)⟩

/-! ### C2: a successful confirmation deducts stock and logs sales -/

/-- The `find?` over a quantity-updated stock list, searching a different
product: the update is invisible. -/
theorem find_map_update_ne (l : List Stock) (pid : Nat) (q : Int) (pid' : Nat)
    (h : pid' ≠ pid) :
    (l.map (fun s => if s.product_id == pid then { s with quantity := q } else s)).find?
        (fun s => s.product_id == pid') = l.find? (fun s => s.product_id == pid') := by
  induction l with
  | nil => rfl
  | cons s tl ih =>
    rw [List.map_cons]
    by_cases hs : s.product_id = pid
    · have h1 : (if s.product_id == pid then ({ s with quantity := q } : Stock) else s) =
          { s with quantity := q } := by simp [hs]
      have h2 : (({ s with quantity := q } : Stock).product_id == pid') = false := by
        simp only [beq_eq_false_iff_ne, ne_eq]
        exact fun e => h (e.symm.trans hs)
      have h3 : (s.product_id == pid') = false := by
        simp only [beq_eq_false_iff_ne, ne_eq]
        exact fun e => h (e.symm.trans hs)
      rw [h1, List.find?_cons_of_neg _ (by simp [h2]), List.find?_cons_of_neg _ (by simp [h3])]
      exact ih
    · have h1 : (if s.product_id == pid then ({ s with quantity := q } : Stock) else s) = s := by
        simp [hs]
      rw [h1]
      by_cases hp : s.product_id = pid'
      · rw [List.find?_cons_of_pos _ (by simp [hp]), List.find?_cons_of_pos _ (by simp [hp])]
      · rw [List.find?_cons_of_neg _ (by simp [hp]), List.find?_cons_of_neg _ (by simp [hp])]
        exact ih

/-- The `find?` over a quantity-updated stock list, searching the updated
product: the found row carries the new quantity. -/
theorem find_map_update_eq (l : List Stock) (pid : Nat) (q : Int) :
    (l.map (fun s => if s.product_id == pid then { s with quantity := q } else s)).find?
        (fun s => s.product_id == pid) =
      (l.find? (fun s => s.product_id == pid)).map (fun s => { s with quantity := q }) := by
  induction l with
  | nil => rfl
  | cons s tl ih =>
    rw [List.map_cons]
    by_cases hs : s.product_id = pid
    · have h1 : (if s.product_id == pid then ({ s with quantity := q } : Stock) else s) =
          { s with quantity := q } := by simp [hs]
      rw [h1, List.find?_cons_of_pos _ (by simp [hs]), List.find?_cons_of_pos _ (by simp [hs])]
      rfl
    · have h1 : (if s.product_id == pid then ({ s with quantity := q } : Stock) else s) = s := by
        simp [hs]
      rw [h1, List.find?_cons_of_neg _ (by simp [hs]), List.find?_cons_of_neg _ (by simp [hs])]
      exact ih

/-- The `DB.set_stock_quantity` seen through `DB.find_stock`. -/
theorem DB.find_stock_set_stock_quantity (db : DB) (pid : Nat) (q : Int) (pid' : Nat) :
    (db.set_stock_quantity pid q).find_stock pid' =
      if pid' = pid then (db.find_stock pid').map (fun s => { s with quantity := q })
      else db.find_stock pid' := by
  by_cases h : pid' = pid
  · rw [if_pos h]
    subst h
    exact find_map_update_eq db.stocks pid' q
  · rw [if_neg h]
    exact find_map_update_ne db.stocks pid q pid' h

/-- When a stock row exists, `get_or_create_stock` returns it and leaves
the database untouched. -/
theorem get_or_create_stock_found (db : DB) (pid : Nat) (s : Stock)
    (h : db.find_stock pid = some s) :
    StockService.get_or_create_stock db pid = (db, s) := by
  unfold StockService.get_or_create_stock
  rw [h]

/-- A found stock row carries the product id it was searched by. -/
theorem find_stock_product_id (db : DB) (pid : Nat) (s : Stock)
    (h : db.find_stock pid = some s) : s.product_id = pid := by
  unfold DB.find_stock at h
  simpa using List.find?_some h

/-- The `available_stock` of a product with a stock row is the quantity of that row. -/
theorem available_stock_eq (db : DB) (pid : Nat) (s : Stock)
    (h : db.find_stock pid = some s) : available_stock db pid = s.quantity := by
  unfold available_stock
  rw [h]

/-- The `Stock.add_movement` on a `vente`, written out: the stock row drops
by the quantity and the movement is appended. -/
theorem add_movement_vente (db : DB) (s : Stock) (q : Int) (r n : Option String) :
    db.add_movement s .vente q r n =
      ({ db.set_stock_quantity s.product_id (s.quantity - q) with
          movements := db.movements ++
            [{ product_id := s.product_id, movement_type := .vente, quantity := q,
               quantity_before := s.quantity, quantity_after := s.quantity - q,
               reference := r, notes := n }] },
       { product_id := s.product_id, movement_type := .vente, quantity := q,
         quantity_before := s.quantity, quantity_after := s.quantity - q,
         reference := r, notes := n }) := rfl

/-- The pre-check loop of `confirm_order` passes when every item has a
stock row covering its quantity. -/
theorem precheck_none_of_sufficient (db : DB) :
    ∀ items : List OrderItem,
      (∀ it ∈ items, ∃ s, db.find_stock it.product_id = some s ∧ it.quantity ≤ s.quantity) →
      confirm_precheck db items = none := by
  intro items
  induction items with
  | nil => intro _; rfl
  | cons it rest ih =>
    intro h
    obtain ⟨s, hfind, hq⟩ := h it (List.mem_cons_self it rest)
    unfold confirm_precheck
    rw [hfind]
    simp only [not_lt.mpr hq, if_false]
    exact ih (fun it' h' => h it' (List.mem_cons_of_mem it h'))

/-- Behaviour of the `deduct_for_order` loop on an item list whose
products are pairwise distinct and all sufficiently stocked: it succeeds,
decrements each referenced stock by the item quantity, leaves every
other stock row untouched, and appends exactly one `vente` movement per
item carrying the before/after snapshot taken from the initial state. -/
theorem deduct_items_spec :
    ∀ (items : List OrderItem) (db : DB) (numero : String),
      (items.map (fun it => it.product_id)).Nodup →
      (∀ it ∈ items, ∃ s, db.find_stock it.product_id = some s ∧ it.quantity ≤ s.quantity) →
      ∃ dbf ms, deduct_items db numero items = (dbf, .ok ms) ∧
        (∀ it ∈ items, available_stock dbf it.product_id =
            available_stock db it.product_id - it.quantity) ∧
        (∀ pid, pid ∉ items.map (fun it => it.product_id) →
            dbf.find_stock pid = db.find_stock pid) ∧
        dbf.movements = db.movements ++ items.map (fun it =>
          ({ product_id := it.product_id, movement_type := .vente,
             quantity := it.quantity,
             quantity_before := available_stock db it.product_id,
             quantity_after := available_stock db it.product_id - it.quantity,
             reference := some numero,
             notes := some ("Vente commande " ++ numero) } : StockMovement)) ∧
        dbf.history = db.history := by
  intro items
  induction items with
  | nil =>
    intro db numero _ _
    exact ⟨db, [], rfl, by simp, fun _ _ => rfl, by simp, rfl⟩
  | cons it rest ih =>
    intro db numero hnd hsuf
    obtain ⟨s, hfind, hq⟩ := hsuf it (List.mem_cons_self it rest)
    have hpid : s.product_id = it.product_id := find_stock_product_id db it.product_id s hfind
    obtain ⟨hni, hnd'⟩ := List.nodup_cons.mp hnd
    have hne_of_mem : ∀ it' ∈ rest, it'.product_id ≠ it.product_id := by
      intro it' h' e
      apply hni
      show it.product_id ∈ rest.map (fun x => x.product_id)
      rw [← e]
      exact List.mem_map_of_mem (fun x => x.product_id) h'
    have hA1 : (db.add_movement s .vente it.quantity (some numero)
        (some ("Vente commande " ++ numero))).1 =
        { db.set_stock_quantity s.product_id (s.quantity - it.quantity) with
          movements := db.movements ++
            [{ product_id := s.product_id, movement_type := .vente,
               quantity := it.quantity, quantity_before := s.quantity,
               quantity_after := s.quantity - it.quantity,
               reference := some numero,
               notes := some ("Vente commande " ++ numero) }] } := by
      rw [add_movement_vente]
    have hA2 : (db.add_movement s .vente it.quantity (some numero)
        (some ("Vente commande " ++ numero))).2 =
        { product_id := s.product_id, movement_type := .vente,
          quantity := it.quantity, quantity_before := s.quantity,
          quantity_after := s.quantity - it.quantity,
          reference := some numero,
          notes := some ("Vente commande " ++ numero) } := by
      rw [add_movement_vente]
    have hstep : deduct_items db numero (it :: rest) =
        match deduct_items (db.add_movement s .vente it.quantity (some numero)
            (some ("Vente commande " ++ numero))).1 numero rest with
        | (db3, .ok ms) =>
          (db3, .ok ((db.add_movement s .vente it.quantity (some numero)
            (some ("Vente commande " ++ numero))).2 :: ms))
        | (db3, .error e) => (db3, .error e) := by
      conv_lhs => rw [deduct_items]
      rw [get_or_create_stock_found db it.product_id s hfind]
      simp only [not_lt.mpr hq, if_false]
    rw [hA1, hA2] at hstep
    set m : StockMovement :=
      { product_id := s.product_id, movement_type := .vente,
        quantity := it.quantity, quantity_before := s.quantity,
        quantity_after := s.quantity - it.quantity,
        reference := some numero,
        notes := some ("Vente commande " ++ numero) } with hm
    set dbm : DB :=
      { db.set_stock_quantity s.product_id (s.quantity - it.quantity) with
        movements := db.movements ++ [m] } with hdbm
    have hdbm_ne : ∀ p, p ≠ it.product_id → dbm.find_stock p = db.find_stock p := by
      intro p hp
      have h0 : dbm.find_stock p =
          (db.set_stock_quantity s.product_id (s.quantity - it.quantity)).find_stock p := rfl
      rw [h0, DB.find_stock_set_stock_quantity, if_neg (by rw [hpid]; exact hp)]
    have hdbm_eq : dbm.find_stock it.product_id =
        some { s with quantity := s.quantity - it.quantity } := by
      have h0 : dbm.find_stock it.product_id =
          (db.set_stock_quantity s.product_id (s.quantity - it.quantity)).find_stock
            it.product_id := rfl
      rw [h0, DB.find_stock_set_stock_quantity, if_pos hpid.symm, hfind]
      rfl
    have hsuf' : ∀ it' ∈ rest, ∃ s', dbm.find_stock it'.product_id = some s' ∧
        it'.quantity ≤ s'.quantity := by
      intro it' h'
      obtain ⟨s', hf', hq'⟩ := hsuf it' (List.mem_cons_of_mem it h')
      exact ⟨s', by rw [hdbm_ne it'.product_id (hne_of_mem it' h')]; exact hf', hq'⟩
    obtain ⟨dbf, ms, heq, havail, hframe, hmov, hhist⟩ := ih dbm numero hnd' hsuf'
    have havdb : available_stock db it.product_id = s.quantity :=
      available_stock_eq db it.product_id s hfind
    refine ⟨dbf, m :: ms, ?_, ?_, ?_, ?_, ?_⟩
    · rw [hstep, heq]
    · intro it' h'
      rcases List.mem_cons.mp h' with h0 | h0
      · subst h0
        have h1 : dbf.find_stock it'.product_id = dbm.find_stock it'.product_id :=
          hframe it'.product_id hni
        have h2 : available_stock dbf it'.product_id = s.quantity - it'.quantity := by
          unfold available_stock
          rw [h1, hdbm_eq]
        rw [h2, havdb]
      · have h1 : available_stock dbm it'.product_id = available_stock db it'.product_id := by
          unfold available_stock
          rw [hdbm_ne it'.product_id (hne_of_mem it' h0)]
        rw [havail it' h0, h1]
    · intro p hp
      have hp1 : p ≠ it.product_id := by
        intro e
        exact hp (by rw [e]; exact List.mem_cons_self _ _)
      have hp2 : p ∉ rest.map (fun x => x.product_id) := by
        intro e
        exact hp (List.mem_cons_of_mem _ e)
      rw [hframe p hp2, hdbm_ne p hp1]
    · have hdm : dbm.movements = db.movements ++ [m] := rfl
      have hmap : rest.map (fun it' =>
            ({ product_id := it'.product_id, movement_type := .vente,
               quantity := it'.quantity,
               quantity_before := available_stock dbm it'.product_id,
               quantity_after := available_stock dbm it'.product_id - it'.quantity,
               reference := some numero,
               notes := some ("Vente commande " ++ numero) } : StockMovement)) =
          rest.map (fun it' =>
            ({ product_id := it'.product_id, movement_type := .vente,
               quantity := it'.quantity,
               quantity_before := available_stock db it'.product_id,
               quantity_after := available_stock db it'.product_id - it'.quantity,
               reference := some numero,
               notes := some ("Vente commande " ++ numero) } : StockMovement)) := by
        apply List.map_congr_left
        intro it' h'
        have h1 : available_stock dbm it'.product_id = available_stock db it'.product_id := by
          unfold available_stock
          rw [hdbm_ne it'.product_id (hne_of_mem it' h')]
        rw [h1]
      have hmeq : m =
          { product_id := it.product_id, movement_type := .vente,
            quantity := it.quantity,
            quantity_before := available_stock db it.product_id,
            quantity_after := available_stock db it.product_id - it.quantity,
            reference := some numero,
            notes := some ("Vente commande " ++ numero) } := by
        rw [hm, hpid, havdb]
      rw [hmov, hdm, hmap, List.map_cons, ← hmeq, List.append_assoc, List.singleton_append]
    · rw [hhist]
      rfl

/-- C2 (amended): confirming a draft order whose lines reference pairwise
distinct products, each with a stock row covering the line quantity,
succeeds: the status becomes `confirmee` (with the confirmation date
stamped and no other order field changed), each referenced stock drops
by exactly the ordered quantity, and exactly one `vente` movement per
line is appended, whose `quantity_before`/`quantity_after` are the stock
before and after that deduction. -/
theorem C2_confirm_success (db : DB) (o : Order) (now : Nat)
    (hst : o.status = .brouillon)
    (hnd : (o.items.map (fun it => it.product_id)).Nodup)
    (hsuf : ∀ it ∈ o.items, ∃ s, db.find_stock it.product_id = some s ∧
        it.quantity ≤ s.quantity) :
    (OrderService.confirm_order db o now).result = none ∧
    (OrderService.confirm_order db o now).order =
      { o with status := .confirmee, date_confirmation := some now } ∧
    (∀ it ∈ o.items,
      available_stock (OrderService.confirm_order db o now).db it.product_id =
        available_stock db it.product_id - it.quantity) ∧
    (OrderService.confirm_order db o now).db.movements =
      db.movements ++ o.items.map (fun it =>
        ({ product_id := it.product_id, movement_type := .vente,
           quantity := it.quantity,
           quantity_before := available_stock db it.product_id,
           quantity_after := available_stock db it.product_id - it.quantity,
           reference := some o.numero,
           notes := some ("Vente commande " ++ o.numero) } : StockMovement)) := by
  obtain ⟨dbf, ms, heq, havail, hframe, hmov, hhist⟩ :=
    deduct_items_spec o.items db o.numero hnd hsuf
  have hpre := precheck_none_of_sufficient db o.items hsuf
  have hc : o.can_transition_to .confirmee = true := by
    unfold Order.can_transition_to
    rw [hst]
    rfl
  have hres : OrderService.confirm_order db o now =
      { db := dbf, order := { o with status := .confirmee, date_confirmation := some now },
        result := none } := by
    unfold OrderService.confirm_order StockService.deduct_for_order
    rw [hc, hpre, heq]
    unfold Order.update_status
    rw [hc]
    rfl
  rw [hres]
  exact ⟨rfl, rfl, havail, hmov⟩

/-- Witness for `C2_confirm_success`: scenario A — one line of 3 units
against a stock of 5 yields stock 2 and one `vente` movement with
`quantity_before = 5`, `quantity_after = 2`. -/
theorem C2_witness :
    order_draft.status = .brouillon ∧
    (order_draft.items.map (fun it => it.product_id)).Nodup ∧
    (∀ it ∈ order_draft.items, ∃ s, db5.find_stock it.product_id = some s ∧
        it.quantity ≤ s.quantity) ∧
    ((OrderService.confirm_order db5 order_draft 9).result = none ∧
     (OrderService.confirm_order db5 order_draft 9).order =
       { order_draft with status := .confirmee, date_confirmation := some 9 } ∧
     (∀ it ∈ order_draft.items,
       available_stock (OrderService.confirm_order db5 order_draft 9).db it.product_id =
         available_stock db5 it.product_id - it.quantity) ∧
     (OrderService.confirm_order db5 order_draft 9).db.movements =
       db5.movements ++ order_draft.items.map (fun it =>
         ({ product_id := it.product_id, movement_type := .vente,
            quantity := it.quantity,
            quantity_before := available_stock db5 it.product_id,
            quantity_after := available_stock db5 it.product_id - it.quantity,
            reference := some order_draft.numero,
            notes := some ("Vente commande " ++ order_draft.numero) } : StockMovement))) :=
  ⟨rfl, by decide, by decide,
    C2_confirm_success db5 order_draft 9 rfl (by decide) (by decide)⟩

/-! ### C1: the frame of business-rule failures across the workflow -/

/-- C1 (amended): every business-rule failure of the modelled Workflow
Service operations — an out-of-table status transition, a blank
cancellation reason, a cancel of a delivered/already-cancelled order, a
confirm of a non-draft order, and a confirm of a draft order with an
insufficiently stocked line — fails with the corresponding error and
leaves the database (stocks, movements, history) and the order exactly
unchanged, with the one exception the code forces: the failed cancel has
already written `motif_annulation` (every other field and all stock
quantities unchanged).  A confirm whose per-line pre-check passes but
whose deduction fails midway (duplicate-product lines) is outside this
statement: at the service level it keeps the movements and stock
decrements made before the raise, and only the HTTP rollback discards
them. -/
theorem C1_business_failure_frame :
    (∀ (db : DB) (o : Order) (target : OrderStatus) (now : Nat),
      target ∉ VALID_TRANSITIONS o.status →
      OrderService.update_status db o target now =
        { db := db, order := o, result := some (.invalid_transition o.status target) }) ∧
    (∀ (db : DB) (o : Order) (now : Nat),
      OrderService.cancel_order db o "" now =
        { db := db, order := o, result := some .missing_reason }) ∧
    (∀ (db : DB) (o : Order) (motif : String) (now : Nat),
      o.status = .livree ∨ o.status = .annulee → motif ≠ "" →
      OrderService.cancel_order db o motif now =
        { db := db, order := { o with motif_annulation := some motif },
          result := some (.invalid_transition o.status .annulee) }) ∧
    (∀ (db : DB) (o : Order) (now : Nat),
      o.status ≠ .brouillon →
      OrderService.confirm_order db o now =
        { db := db, order := o, result := some (.invalid_transition o.status .confirmee) }) ∧
    (∀ (db : DB) (o : Order) (now : Nat),
      o.status = .brouillon →
      (∃ it ∈ o.items, available_stock db it.product_id < it.quantity) →
      (∃ it ∈ o.items, (OrderService.confirm_order db o now).result =
          some (.insufficient_stock it.product_id (available_stock db it.product_id)
            it.quantity)) ∧
      (OrderService.confirm_order db o now).db = db ∧
      (OrderService.confirm_order db o now).order = o) :=
  ⟨update_status_invalid_frame, cancel_blank_reason, cancel_terminal_frame,
    confirm_nondraft_frame, confirm_insufficient_frame⟩

/-- Witness for `C1_business_failure_frame`: one concrete instance of
each failing operation — a paid order refused the jump to `livree`, a
blank-reason cancel, the cancel of a delivered order (reason written,
all else untouched), the confirm of a paid order, and scenario B
(stock 2, requested 3). -/
theorem C1_witness :
    (OrderStatus.livree ∉ VALID_TRANSITIONS order_payee.status ∧
     OrderService.update_status db5 order_payee .livree 0 =
       { db := db5, order := order_payee,
         result := some (.invalid_transition order_payee.status .livree) }) ∧
    (OrderService.cancel_order db5 order_draft "" 0 =
       { db := db5, order := order_draft, result := some .missing_reason }) ∧
    ((order_livree.status = .livree ∨ order_livree.status = .annulee) ∧
     OrderService.cancel_order db5 order_livree "demande client" 0 =
       { db := db5, order := { order_livree with motif_annulation := some "demande client" },
         result := some (.invalid_transition order_livree.status .annulee) }) ∧
    (order_payee.status ≠ .brouillon ∧
     OrderService.confirm_order db5 order_payee 0 =
       { db := db5, order := order_payee,
         result := some (.invalid_transition order_payee.status .confirmee) }) ∧
    (order_draft.status = .brouillon ∧
     (∃ it ∈ order_draft.items, available_stock db2 it.product_id < it.quantity) ∧
     ((∃ it ∈ order_draft.items, (OrderService.confirm_order db2 order_draft 0).result =
         some (.insufficient_stock it.product_id (available_stock db2 it.product_id)
           it.quantity)) ∧
      (OrderService.confirm_order db2 order_draft 0).db = db2 ∧
      (OrderService.confirm_order db2 order_draft 0).order = order_draft)) :=
  ⟨⟨by decide, C1_business_failure_frame.1 db5 order_payee .livree 0 (by decide)⟩,
   C1_business_failure_frame.2.1 db5 order_draft 0,
   ⟨Or.inl rfl,
     C1_business_failure_frame.2.2.1 db5 order_livree "demande client" 0 (Or.inl rfl)
       (by decide)⟩,
   ⟨by decide, C1_business_failure_frame.2.2.2.1 db5 order_payee 0 (by decide)⟩,
   ⟨rfl, by decide,
     C1_business_failure_frame.2.2.2.2 db2 order_draft 0 rfl (by decide)⟩⟩
